import Mathlib

/-!
Verification of the FaceTracker real-time detection-and-recording pipeline.

The development shallowly embeds the `FaceRecorder` component: its React
state and refs become a state record, and every externally triggered
handler (model load completion, camera acquisition, the video `play`
event, one firing of the detection interval, the Start/Stop button
clicks, the encoder's `ondataavailable` and `onstop` callbacks, the
window `resize` handler, the mount effect's re-run, and unmount cleanup)
becomes one event of a transition function `applyEvent`.  `enabled`
records when the host environment can deliver each event (in particular,
the Start button is rendered only while `recording` is false and is
disabled until both the models and the camera are ready, exactly as in
the component's JSX).  Because the mount effect lists `cleanup` in its
dependency array and `cleanup` depends on `videoURL`, every change of
`videoURL` re-runs that effect: the previous render's cleanup closure
fires first — revoking the blob URL it captured, clearing the detection
interval and stopping the capture tracks — and then the effect body runs
again; the `effectRerun` event models this, with `effectURL` recording
the `videoURL` value captured by the currently registered closure.
Blob URLs are modelled by a fresh-name counter together with the list of
created-but-not-revoked URLs.
-/

namespace FaceTracker

/-- Display dimensions; JS numbers are embedded as rationals. -/
structure Dims where
  width : Rat
  height : Rat
deriving DecidableEq, Repr

/-- A detection bounding box. -/
structure Box where
  x : Rat
  y : Rat
  width : Rat
  height : Rat
deriving DecidableEq, Repr

/-- One detection-with-landmarks result, carrying the dimensions it is
currently expressed in (face-api results know their source dimensions,
which `resizeResults` rescales from). -/
structure FaceDetection where
  imageDims : Dims
  box : Box
  landmarks : List (Rat × Rat)
deriving DecidableEq, Repr

/-- What one draw call paints onto the overlay canvas. -/
inductive DrawCmd where
  | boxCmd : Box → DrawCmd
  | landmarkCmd : List (Rat × Rat) → DrawCmd
deriving DecidableEq, Repr

/-- The overlay canvas: its drawable dimensions and its current content,
as the list of draw commands since the last clear. -/
structure Canvas where
  dims : Dims
  content : List DrawCmd
deriving DecidableEq, Repr

/-- The values captured by the `setInterval` callback's closure when
`startFaceDetection` installs it: `videoDimensions` and `modelsLoaded`
as they were at installation time. -/
structure IntervalClosure where
  dims : Dims
  modelsLoadedCap : Bool
deriving DecidableEq, Repr

/-- The user-visible error messages the component can set via `setError`. -/
inductive RecError where
  | modelLoadFailed
  | cameraAccessFailed
  | canvasNotReady
  | recordingFailed
deriving DecidableEq, Repr

/-- The component's whole mutable state: React state hooks, refs, and the
bookkeeping for MediaRecorder instances and object URLs.
`currentActive` says whether the recorder held in `recorderRef` is
started and not yet stopped; `orphanActive` counts recorders that were
overwritten in the ref while still running; `stopPending` counts
`onstop` callbacks scheduled but not yet fired; `liveURLs` lists object
URLs created and not yet revoked, `nextURL` being the next fresh one;
`effectURL` is the `videoURL` value captured by the cleanup closure of
the currently registered mount effect. -/
structure FaceRecorderState where
  mounted : Bool
  modelsLoaded : Bool
  cameraReady : Bool
  error : Option RecError
  faceDetected : Bool
  recording : Bool
  recordingTime : Nat
  videoDimensions : Dims
  videoURL : Option Nat
  canvas : Option Canvas
  detectionInterval : Option IntervalClosure
  recorderSet : Bool
  currentActive : Bool
  orphanActive : Nat
  stopPending : Nat
  recordedChunks : List (List Nat)
  streamTracks : List Bool
  artifact : Option (List Nat)
  nextURL : Nat
  liveURLs : List Nat
  effectURL : Option Nat
deriving DecidableEq, Repr

/-- The state right after mount: default hook values, empty refs. -/
def initState : FaceRecorderState :=
  { mounted := true
    modelsLoaded := false
    cameraReady := false
    error := none
    faceDetected := false
    recording := false
    recordingTime := 0
    videoDimensions := { width := 640, height := 480 }
    videoURL := none
    canvas := none
    detectionInterval := none
    recorderSet := false
    currentActive := false
    orphanActive := 0
    stopPending := 0
    recordedChunks := []
    streamTracks := []
    artifact := none
    nextURL := 0
    liveURLs := []
    effectURL := none }

/-- The externally triggered events the component reacts to. -/
inductive Event where
  | modelsLoadedOk
  | modelsLoadFail
  | cameraOk : Nat → Event
  | cameraFail
  | videoPlay
  | detectCycle : Option (List FaceDetection) → Event
  | clickStart : Bool → Event
  | clickStop
  | dataAvailable : List Nat → Event
  | recorderStopped
  | timerTick
  | resize : Rat → Event
  | effectRerun : Rat → Event
  | unmount
deriving DecidableEq

/-- Executable minimum on rationals, embedding the Math.min clamp. -/
def ratMin (a b : Rat) : Rat := if Rat.blt a b then a else b

/-- The `calculateDimensions` callback: clamp the window's inner width
minus padding to 800 and derive the height from a 4:3 aspect ratio. -/
def calculateDimensions (innerWidth : Rat) : Dims :=
  let maxWidth := ratMin (innerWidth - 40) 800
  let width := maxWidth
  let height := width / (4 / 3)
  { width := width, height := height }

/-- Rescale one detection from its own image dimensions to the target
dimensions, as `faceapi.resizeResults` does pointwise. -/
def resizeDetection (target : Dims) (d : FaceDetection) : FaceDetection :=
  let sx := target.width / d.imageDims.width
  let sy := target.height / d.imageDims.height
  { imageDims := target
    box := { x := d.box.x * sx, y := d.box.y * sy,
             width := d.box.width * sx, height := d.box.height * sy }
    landmarks := d.landmarks.map (fun p => (p.1 * sx, p.2 * sy)) }

/-- The `faceapi.resizeResults` call of a detection cycle. -/
def resizeResults (ds : List FaceDetection) (target : Dims) : List FaceDetection :=
  ds.map (resizeDetection target)

/-- Content of the overlay canvas after one cycle's clear-then-draw: the
clear empties it, then `drawDetections` and `drawFaceLandmarks` run only
when the resized result list is non-empty. -/
def cycleDrawing (resized : List FaceDetection) : List DrawCmd :=
  if 0 < resized.length then
    resized.map (fun d => DrawCmd.boxCmd d.box) ++
      resized.map (fun d => DrawCmd.landmarkCmd d.landmarks)
  else []

/-- One event's effect on the component state, transcribed handler by
handler from the source. -/
def applyEvent (e : Event) (s : FaceRecorderState) : FaceRecorderState :=
  match e with
  | .modelsLoadedOk => { s with modelsLoaded := true, error := none }
  | .modelsLoadFail => { s with error := some .modelLoadFailed }
  | .cameraOk n =>
      { s with
          cameraReady := true,
          error := none,
          streamTracks := List.replicate n true }
  | .cameraFail => { s with error := some .cameraAccessFailed }
  | .videoPlay =>
      if s.modelsLoaded && s.cameraReady then
        { s with
            canvas := some { dims := s.videoDimensions, content := [] },
            detectionInterval := some { dims := s.videoDimensions,
                                        modelsLoadedCap := s.modelsLoaded } }
      else s
  | .detectCycle res =>
      match s.detectionInterval with
      | none => s
      | some c =>
          if c.modelsLoadedCap then
            match res with
            | none => s
            | some ds =>
                let resized := resizeResults ds c.dims
                let s1 := { s with faceDetected := decide (0 < ds.length) }
                match s1.canvas with
                | none => s1
                | some cv =>
                    { s1 with
                        canvas := some { dims := cv.dims,
                                         content := cycleDrawing resized } }
          else s
  | .clickStart encoderOk =>
      match s.canvas with
      | none => { s with error := some .canvasNotReady }
      | some _ =>
          if encoderOk then
            { s with
                recorderSet := true,
                orphanActive := s.orphanActive +
                  (if s.currentActive then 1 else 0),
                currentActive := true,
                recordedChunks := [],
                recording := true,
                error := none }
          else { s with error := some .recordingFailed }
  | .clickStop =>
      if s.recorderSet && s.recording then
        { s with
            currentActive := false,
            stopPending := s.stopPending + 1,
            recording := false }
      else s
  | .dataAvailable d =>
      if 0 < d.length then
        { s with recordedChunks := s.recordedChunks ++ [d] }
      else s
  | .recorderStopped =>
      { s with
          artifact := some (List.flatten s.recordedChunks),
          videoURL := some s.nextURL,
          liveURLs := s.nextURL :: s.liveURLs,
          nextURL := s.nextURL + 1,
          recordingTime := 0,
          stopPending := s.stopPending - 1 }
  | .timerTick =>
      if s.recording then { s with recordingTime := s.recordingTime + 1 } else s
  | .resize w => { s with videoDimensions := calculateDimensions w }
  | .effectRerun w =>
      { s with
          detectionInterval := none,
          streamTracks := s.streamTracks.map (fun _ => false),
          liveURLs := match s.effectURL with
                      | some u => s.liveURLs.erase u
                      | none => s.liveURLs,
          videoDimensions := calculateDimensions w,
          effectURL := s.videoURL }
  | .unmount =>
      { s with
          mounted := false,
          detectionInterval := none,
          streamTracks := s.streamTracks.map (fun _ => false),
          liveURLs := match s.videoURL with
                      | some u => s.liveURLs.erase u
                      | none => s.liveURLs }

/-- When the host environment can deliver each event: the detection
interval only fires while installed, `ondataavailable` and `onstop` only
while a recorder is running or stopping, the Start and Stop buttons
follow the component's conditional rendering and `disabled` attribute,
and the mount effect re-runs exactly when its `cleanup` dependency — and
hence `videoURL` — has changed since the effect last ran. -/
def enabled (e : Event) (s : FaceRecorderState) : Bool :=
  s.mounted &&
    match e with
    | .modelsLoadedOk => true
    | .modelsLoadFail => true
    | .cameraOk _ => s.modelsLoaded
    | .cameraFail => s.modelsLoaded
    | .videoPlay => s.cameraReady
    | .detectCycle _ => s.detectionInterval.isSome
    | .clickStart _ => !s.recording && s.modelsLoaded && s.cameraReady
    | .clickStop => s.recording
    | .dataAvailable _ => s.currentActive || decide (0 < s.stopPending)
    | .recorderStopped => decide (0 < s.stopPending)
    | .timerTick => s.recording
    | .resize _ => true
    | .effectRerun _ => decide (s.videoURL ≠ s.effectURL)
    | .unmount => true

/-- States the pipeline can actually be in: the post-mount state closed
under enabled events. -/
inductive Reachable : FaceRecorderState → Prop where
  | init : Reachable initState
  | step (e : Event) (s : FaceRecorderState) :
      Reachable s → enabled e s = true → Reachable (applyEvent e s)

/-- Apply an event when enabled, otherwise leave the state alone. -/
def stepE (s : FaceRecorderState) (e : Event) : FaceRecorderState :=
  if enabled e s then applyEvent e s else s

/-- Run a list of events from a state. -/
def runE (evs : List Event) (s : FaceRecorderState) : FaceRecorderState :=
  evs.foldl stepE s

/-- Number of MediaRecorder instances currently started and not stopped:
orphaned ones plus the one in the ref, if running. -/
def activeSessions (s : FaceRecorderState) : Nat :=
  s.orphanActive + (if s.currentActive then 1 else 0)

/-- Structural invariant maintained by every enabled event. -/
def Inv (s : FaceRecorderState) : Prop :=
  (s.currentActive = true → s.recording = true) ∧
  (s.currentActive = true → s.recorderSet = true) ∧
  s.orphanActive = 0 ∧
  (∀ u ∈ s.liveURLs, u < s.nextURL) ∧
  s.liveURLs.Nodup ∧
  (s.canvas = none → s.recording = false)

theorem reachable_stepE (s : FaceRecorderState) (e : Event) (h : Reachable s) :
    Reachable (stepE s e) := by
  unfold stepE
  cases he : enabled e s with
  | true => simpa using Reachable.step e s h he
  | false => simpa using h

theorem reachable_runE (evs : List Event) (s : FaceRecorderState)
    (h : Reachable s) : Reachable (runE evs s) := by
  induction evs generalizing s with
  | nil => simpa [runE] using h
  | cons e rest ih =>
      have hstep : runE (e :: rest) s = runE rest (stepE s e) := rfl
      rw [hstep]
      exact ih _ (reachable_stepE s e h)

theorem inv_init : Inv initState := by
  refine ⟨?_, ?_, rfl, ?_, ?_, ?_⟩ <;> simp [initState]

theorem inv_step (e : Event) (s : FaceRecorderState)
    (hs : Inv s) (he : enabled e s = true) : Inv (applyEvent e s) := by
  obtain ⟨h1, h2, h3, h4, h5, h6⟩ := hs
  cases e with
  | modelsLoadedOk => exact ⟨h1, h2, h3, h4, h5, h6⟩
  | modelsLoadFail => exact ⟨h1, h2, h3, h4, h5, h6⟩
  | cameraOk n => exact ⟨h1, h2, h3, h4, h5, h6⟩
  | cameraFail => exact ⟨h1, h2, h3, h4, h5, h6⟩
  | videoPlay =>
      simp only [applyEvent]
      split
      · exact ⟨h1, h2, h3, h4, h5, by simp⟩
      · exact ⟨h1, h2, h3, h4, h5, h6⟩
  | detectCycle res =>
      simp only [applyEvent]
      cases hdi : s.detectionInterval with
      | none => exact ⟨h1, h2, h3, h4, h5, h6⟩
      | some c =>
          dsimp only
          split
          · cases res with
            | none => exact ⟨h1, h2, h3, h4, h5, h6⟩
            | some ds =>
                dsimp only
                cases hcv : s.canvas with
                | none =>
                    dsimp only
                    exact ⟨h1, h2, h3, h4, h5, fun _ => h6 hcv⟩
                | some cv =>
                    dsimp only
                    exact ⟨h1, h2, h3, h4, h5, by simp⟩
          · exact ⟨h1, h2, h3, h4, h5, h6⟩
  | clickStart encoderOk =>
      have hrec : s.recording = false := by
        simp only [enabled, Bool.and_eq_true, Bool.not_eq_true'] at he
        exact he.2.1.1
      have hact : s.currentActive = false := by
        cases hca : s.currentActive with
        | false => rfl
        | true => rw [h1 hca] at hrec; exact absurd hrec (by simp)
      simp only [applyEvent]
      cases hcv : s.canvas with
      | none =>
          dsimp only
          exact ⟨h1, h2, h3, h4, h5, fun _ => hrec⟩
      | some cv =>
          dsimp only
          cases encoderOk with
          | true =>
              simp only [if_true]
              refine ⟨fun _ => rfl, fun _ => rfl, ?_, h4, h5, by simp⟩
              simp [h3, hact]
          | false =>
              simp only [Bool.false_eq_true, if_false]
              exact ⟨h1, h2, h3, h4, h5, by simp⟩
  | clickStop =>
      simp only [applyEvent]
      split
      · exact ⟨by simp, by simp, h3, h4, h5, fun _ => rfl⟩
      · exact ⟨h1, h2, h3, h4, h5, h6⟩
  | dataAvailable d =>
      simp only [applyEvent]
      split
      · exact ⟨h1, h2, h3, h4, h5, h6⟩
      · exact ⟨h1, h2, h3, h4, h5, h6⟩
  | recorderStopped =>
      refine ⟨h1, h2, h3, ?_, ?_, h6⟩
      · intro u hu
        simp only [applyEvent, List.mem_cons] at hu ⊢
        cases hu with
        | inl hl => omega
        | inr hr => have := h4 u hr; omega
      · simp only [applyEvent]
        refine List.Nodup.cons ?_ h5
        intro hmem
        have := h4 s.nextURL hmem
        omega
  | timerTick =>
      simp only [applyEvent]
      split
      · exact ⟨h1, h2, h3, h4, h5, h6⟩
      · exact ⟨h1, h2, h3, h4, h5, h6⟩
  | resize w => exact ⟨h1, h2, h3, h4, h5, h6⟩
  | effectRerun w =>
      simp only [applyEvent]
      cases hu : s.effectURL with
      | none => exact ⟨h1, h2, h3, h4, h5, h6⟩
      | some u =>
          dsimp only
          refine ⟨h1, h2, h3, ?_, h5.erase u, h6⟩
          intro v hv
          exact h4 v (List.mem_of_mem_erase hv)
  | unmount =>
      simp only [applyEvent]
      cases hu : s.videoURL with
      | none => exact ⟨h1, h2, h3, h4, h5, h6⟩
      | some u =>
          dsimp only
          refine ⟨h1, h2, h3, ?_, h5.erase u, h6⟩
          intro v hv
          exact h4 v (List.mem_of_mem_erase hv)

theorem inv_reachable (s : FaceRecorderState) (h : Reachable s) : Inv s := by
  induction h with
  | init => exact inv_init
  | step e t _ he ih => exact inv_step e t ih he

theorem clickStop_chunks (t : FaceRecorderState) :
    (applyEvent .clickStop t).recordedChunks = t.recordedChunks := by
  simp only [applyEvent]
  split <;> rfl

theorem dataAvailable_effect (d : List Nat) (t : FaceRecorderState) :
    (applyEvent (.dataAvailable d) t).recordedChunks =
      t.recordedChunks ++ (if 0 < d.length then [d] else []) ∧
    (applyEvent (.dataAvailable d) t).recording = t.recording ∧
    (applyEvent (.dataAvailable d) t).recorderSet = t.recorderSet := by
  simp only [applyEvent]
  split <;> simp

/-- Run the ondataavailable handler over a list of delivered segments. -/
def feedChunks (s : FaceRecorderState) (ds : List (List Nat)) : FaceRecorderState :=
  ds.foldl (fun t d => applyEvent (.dataAvailable d) t) s

theorem feedChunks_spec (ds : List (List Nat)) (s : FaceRecorderState) :
    (feedChunks s ds).recordedChunks =
      s.recordedChunks ++ ds.filter (fun d => decide (0 < d.length)) ∧
    (feedChunks s ds).recording = s.recording ∧
    (feedChunks s ds).recorderSet = s.recorderSet := by
  induction ds generalizing s with
  | nil => simp [feedChunks]
  | cons d rest ih =>
      have hstep : feedChunks s (d :: rest) =
          feedChunks (applyEvent (.dataAvailable d) s) rest := rfl
      rw [hstep]
      obtain ⟨ha, hb, hc⟩ := ih (applyEvent (.dataAvailable d) s)
      obtain ⟨hd, hrec, hset⟩ := dataAvailable_effect d s
      refine ⟨?_, by rw [hb, hrec], by rw [hc, hset]⟩
      rw [ha, hd, List.filter_cons]
      by_cases hlen : 0 < d.length
      · simp [hlen]
      · simp [hlen]

/-- Claim C3: in every reachable pipeline state at most one recording
session is active, so the start-recording action never yields two
simultaneously running recorders. -/
theorem c3_at_most_one_active_session (s : FaceRecorderState)
    (h : Reachable s) : activeSessions s ≤ 1 := by
  obtain ⟨_, _, h3, _, _, _⟩ := inv_reachable s h
  unfold activeSessions
  rw [h3]
  split <;> omega

def c3Trace : List Event :=
  [.modelsLoadedOk, .cameraOk 1, .videoPlay, .clickStart true]

theorem c3_at_most_one_active_session_witness :
    Reachable (runE c3Trace initState) ∧
      activeSessions (runE c3Trace initState) ≤ 1 :=
  ⟨reachable_runE c3Trace initState Reachable.init,
   c3_at_most_one_active_session (runE c3Trace initState)
     (reachable_runE c3Trace initState Reachable.init)⟩

/-- Claim C4: starting recording before the overlay canvas exists sets
the user-visible not-ready error, creates no recorder, and leaves the
recording flag false. -/
theorem c4_start_before_surface_fails (s : FaceRecorderState) (ok : Bool)
    (hre : Reachable s) (hcv : s.canvas = none) :
    (applyEvent (.clickStart ok) s).error = some RecError.canvasNotReady ∧
    (applyEvent (.clickStart ok) s).recording = false ∧
    (applyEvent (.clickStart ok) s).recorderSet = s.recorderSet ∧
    (applyEvent (.clickStart ok) s).currentActive = s.currentActive ∧
    (applyEvent (.clickStart ok) s).recordedChunks = s.recordedChunks := by
  obtain ⟨_, _, _, _, _, h6⟩ := inv_reachable s hre
  have hrec := h6 hcv
  simp [applyEvent, hcv, hrec]

theorem c4_start_before_surface_fails_witness :
    Reachable initState ∧ initState.canvas = none ∧
      ((applyEvent (.clickStart true) initState).error =
          some RecError.canvasNotReady ∧
       (applyEvent (.clickStart true) initState).recording = false ∧
       (applyEvent (.clickStart true) initState).recorderSet =
          initState.recorderSet ∧
       (applyEvent (.clickStart true) initState).currentActive =
          initState.currentActive ∧
       (applyEvent (.clickStart true) initState).recordedChunks =
          initState.recordedChunks) :=
  ⟨Reachable.init, rfl,
   c4_start_before_surface_fails initState true Reachable.init rfl⟩

/-- Claim C6: one successful detection cycle clears the overlay and then
draws, so afterwards the canvas holds exactly that cycle's resized boxes
and landmarks, whatever was drawn before. -/
theorem c6_cycle_draws_exactly_latest (s : FaceRecorderState)
    (c : IntervalClosure) (cv : Canvas) (ds : List FaceDetection)
    (hdi : s.detectionInterval = some c) (hcap : c.modelsLoadedCap = true)
    (hcv : s.canvas = some cv) :
    (applyEvent (.detectCycle (some ds)) s).canvas =
      some { dims := cv.dims,
             content := cycleDrawing (resizeResults ds c.dims) } := by
  simp [applyEvent, hdi, hcap, hcv]

def c6State : FaceRecorderState :=
  { initState with
      modelsLoaded := true,
      cameraReady := true,
      canvas := some { dims := { width := 640, height := 480 },
                       content := [DrawCmd.boxCmd
                         { x := 1, y := 2, width := 3, height := 4 }] },
      detectionInterval := some { dims := { width := 640, height := 480 },
                                  modelsLoadedCap := true } }

def c6Detections : List FaceDetection :=
  [{ imageDims := { width := 416, height := 416 },
     box := { x := 104, y := 52, width := 208, height := 104 },
     landmarks := [(104, 208)] }]

theorem c6_cycle_draws_exactly_latest_witness :
    c6State.detectionInterval =
      some { dims := { width := 640, height := 480 },
             modelsLoadedCap := true } ∧
    c6State.canvas =
      some { dims := { width := 640, height := 480 },
             content := [DrawCmd.boxCmd
               { x := 1, y := 2, width := 3, height := 4 }] } ∧
    (applyEvent (.detectCycle (some c6Detections)) c6State).canvas =
      some { dims := { width := 640, height := 480 },
             content := cycleDrawing
               (resizeResults c6Detections { width := 640, height := 480 }) } :=
  ⟨rfl, rfl,
   c6_cycle_draws_exactly_latest c6State _ _ c6Detections rfl rfl rfl⟩

/-- Claim C7: after a successful detection cycle the faceDetected signal
is true exactly when that cycle's result list is non-empty. -/
theorem c7_faceDetected_iff_nonempty (s : FaceRecorderState)
    (c : IntervalClosure) (ds : List FaceDetection)
    (hdi : s.detectionInterval = some c) (hcap : c.modelsLoadedCap = true) :
    ((applyEvent (.detectCycle (some ds)) s).faceDetected = true ↔ ds ≠ []) := by
  cases hcv : s.canvas <;>
    simp [applyEvent, hdi, hcap, hcv, List.length_pos_iff_ne_nil]

def c7State : FaceRecorderState :=
  { initState with
      modelsLoaded := true,
      cameraReady := true,
      canvas := some { dims := { width := 640, height := 480 }, content := [] },
      detectionInterval := some { dims := { width := 640, height := 480 },
                                  modelsLoadedCap := true } }

theorem c7_faceDetected_iff_nonempty_witness :
    c7State.detectionInterval =
      some { dims := { width := 640, height := 480 },
             modelsLoadedCap := true } ∧
    ((applyEvent (.detectCycle (some c6Detections)) c7State).faceDetected =
        true ↔ c6Detections ≠ []) :=
  ⟨rfl, c7_faceDetected_iff_nonempty c7State _ c6Detections rfl rfl⟩

/-- Claim C8: an inference failure inside one cycle is swallowed by the
catch block: the state is unchanged, so the interval stays installed and
no user-visible error is set. -/
theorem c8_inference_failure_is_contained (s : FaceRecorderState) :
    applyEvent (.detectCycle none) s = s ∧
    (applyEvent (.detectCycle none) s).detectionInterval =
      s.detectionInterval ∧
    (applyEvent (.detectCycle none) s).error = s.error := by
  have h : applyEvent (.detectCycle none) s = s := by
    simp only [applyEvent]
    cases s.detectionInterval with
    | none => rfl
    | some c =>
        dsimp only
        split <;> rfl
  exact ⟨h, by rw [h], by rw [h]⟩

/-- Claim C9: calling stop when no recording is active changes nothing
at all — stop is a safe no-op. -/
theorem c9_stop_noop_when_not_recording (s : FaceRecorderState)
    (h : s.recording = false) : applyEvent .clickStop s = s := by
  simp [applyEvent, h]

theorem c9_stop_noop_when_not_recording_witness :
    initState.recording = false ∧
      applyEvent .clickStop initState = initState :=
  ⟨rfl, c9_stop_noop_when_not_recording initState rfl⟩

/-- Claim C10: starting a session resets the chunk buffer, zero-size
segments are dropped on arrival, and the artifact sealed on stop is the
concatenation of the surviving segments in arrival order. -/
theorem c10_artifact_is_ordered_concat (s0 : FaceRecorderState)
    (cv : Canvas) (ds : List (List Nat)) (hcv : s0.canvas = some cv) :
    (applyEvent (.clickStart true) s0).recordedChunks = [] ∧
    (applyEvent .recorderStopped (applyEvent .clickStop
        (feedChunks (applyEvent (.clickStart true) s0) ds))).artifact =
      some (List.flatten (ds.filter (fun d => decide (0 < d.length)))) := by
  have hstart : (applyEvent (.clickStart true) s0).recordedChunks = [] ∧
      (applyEvent (.clickStart true) s0).recording = true ∧
      (applyEvent (.clickStart true) s0).recorderSet = true := by
    simp [applyEvent, hcv]
  obtain ⟨hs1, _, _⟩ := hstart
  obtain ⟨ha, _, _⟩ := feedChunks_spec ds (applyEvent (.clickStart true) s0)
  have hfin : (applyEvent .recorderStopped (applyEvent .clickStop
      (feedChunks (applyEvent (.clickStart true) s0) ds))).artifact =
      some (List.flatten ((applyEvent .clickStop
        (feedChunks (applyEvent (.clickStart true) s0) ds)).recordedChunks)) :=
    rfl
  rw [hfin, clickStop_chunks, ha, hs1]
  exact ⟨rfl, by simp⟩

def c10State : FaceRecorderState :=
  { initState with
      modelsLoaded := true,
      cameraReady := true,
      canvas := some { dims := { width := 640, height := 480 }, content := [] } }

def c1Trace : List Event :=
  [.modelsLoadedOk, .cameraOk 1, .videoPlay, .clickStart true,
   .dataAvailable [5], .clickStop, .recorderStopped, .effectRerun 840,
   .modelsLoadedOk, .cameraOk 1, .videoPlay, .clickStart true,
   .dataAvailable [7], .clickStop, .recorderStopped]

/-- Claim C1 is false on the code: recorder.onstop exposes the new object
URL without first revoking the previous one, so right after the second
session's stop — the trace includes the mount-effect re-run that follows
the first stop — both download handles are live; the previous handle is
revoked only afterwards, when the effect re-runs on the new videoURL
value. -/
theorem c1_two_live_handles_counterexample :
    Reachable (runE c1Trace initState) ∧
    (runE c1Trace initState).liveURLs = [1, 0] ∧
    (applyEvent (.effectRerun 840) (runE c1Trace initState)).liveURLs = [1] :=
  ⟨reachable_runE c1Trace initState Reachable.init, by decide, by decide⟩

/-- Claim C1 amended: when a later session's stop computes the fresh
download handle, the new handle is exposed while the previously held one
is still live; the previous handle is revoked only afterwards, when the
mount effect — whose registered cleanup closure captured it — re-runs on
the videoURL change. -/
theorem c1_handle_revoked_after_exposure (s : FaceRecorderState) (u : Nat)
    (w : Rat) (hre : Reachable s) (_hurl : s.videoURL = some u)
    (heff : s.effectURL = some u) (hlive : u ∈ s.liveURLs) :
    (applyEvent .recorderStopped s).videoURL = some s.nextURL ∧
    s.nextURL ∈ (applyEvent .recorderStopped s).liveURLs ∧
    u ∈ (applyEvent .recorderStopped s).liveURLs ∧
    u ≠ s.nextURL ∧
    u ∉ (applyEvent (.effectRerun w)
          (applyEvent .recorderStopped s)).liveURLs := by
  obtain ⟨_, _, _, h4, h5, _⟩ := inv_reachable s hre
  have hfresh : u < s.nextURL := h4 u hlive
  have hnodup : (s.nextURL :: s.liveURLs).Nodup := by
    refine List.Nodup.cons ?_ h5
    intro hmem
    have := h4 s.nextURL hmem
    omega
  refine ⟨rfl, ?_, ?_, Nat.ne_of_lt hfresh, ?_⟩
  · simp [applyEvent]
  · simp [applyEvent, hlive]
  · have hshape : (applyEvent (.effectRerun w)
        (applyEvent .recorderStopped s)).liveURLs =
        (s.nextURL :: s.liveURLs).erase u := by
      simp [applyEvent, heff]
    rw [hshape]
    exact hnodup.not_mem_erase

def c1WitTrace : List Event :=
  [.modelsLoadedOk, .cameraOk 1, .videoPlay, .clickStart true,
   .dataAvailable [5], .clickStop, .recorderStopped, .effectRerun 840]

theorem c1_handle_revoked_after_exposure_witness :
    Reachable (runE c1WitTrace initState) ∧
    (runE c1WitTrace initState).videoURL = some 0 ∧
    (runE c1WitTrace initState).effectURL = some 0 ∧
    0 ∈ (runE c1WitTrace initState).liveURLs ∧
    ((applyEvent .recorderStopped (runE c1WitTrace initState)).videoURL =
        some (runE c1WitTrace initState).nextURL ∧
      (runE c1WitTrace initState).nextURL ∈
        (applyEvent .recorderStopped (runE c1WitTrace initState)).liveURLs ∧
      0 ∈ (applyEvent .recorderStopped (runE c1WitTrace initState)).liveURLs ∧
      0 ≠ (runE c1WitTrace initState).nextURL ∧
      0 ∉ (applyEvent (.effectRerun 640) (applyEvent .recorderStopped
            (runE c1WitTrace initState))).liveURLs) :=
  ⟨reachable_runE c1WitTrace initState Reachable.init,
   by decide, by decide, by decide,
   c1_handle_revoked_after_exposure (runE c1WitTrace initState) 0 640
     (reachable_runE c1WitTrace initState Reachable.init)
     (by decide) (by decide) (by decide)⟩

def c2Trace : List Event :=
  [.resize 840, .modelsLoadedOk, .cameraOk 1, .videoPlay, .resize 440]

/-- Claim C2 is false on the code: after a mid-session resize the display
dimensions have changed while the overlay canvas keeps the dimensions it
had when detection started, and the running interval still carries the
old scale. -/
theorem c2_overlay_dims_counterexample :
    Reachable (runE c2Trace initState) ∧
    (runE c2Trace initState).videoDimensions =
      { width := 400, height := 300 } ∧
    (runE c2Trace initState).canvas =
      some { dims := { width := 800, height := 600 }, content := [] } ∧
    (runE c2Trace initState).detectionInterval =
      some { dims := { width := 800, height := 600 },
             modelsLoadedCap := true } :=
  ⟨reachable_runE c2Trace initState Reachable.init,
   by with_unfolding_all rfl, by with_unfolding_all rfl,
   by with_unfolding_all rfl⟩

/-- Claim C2 amended: the overlay surface is sized to the display
dimensions only when detection starts on a video play event; a resize
updates the display dimensions but leaves both the overlay canvas and
the scale captured by the running detection interval unchanged until the
next play event. -/
theorem c2_resize_does_not_resync_overlay (s : FaceRecorderState) (w : Rat)
    (hm : s.modelsLoaded = true) (hc : s.cameraReady = true) :
    (applyEvent .videoPlay s).canvas =
      some { dims := s.videoDimensions, content := [] } ∧
    (applyEvent .videoPlay s).detectionInterval =
      some { dims := s.videoDimensions, modelsLoadedCap := s.modelsLoaded } ∧
    (applyEvent (.resize w) s).canvas = s.canvas ∧
    (applyEvent (.resize w) s).detectionInterval = s.detectionInterval ∧
    (applyEvent (.resize w) s).videoDimensions = calculateDimensions w := by
  refine ⟨?_, ?_, rfl, rfl, rfl⟩ <;> simp [applyEvent, hm, hc]

def c2WitState : FaceRecorderState :=
  runE [.modelsLoadedOk, .cameraOk 1] initState

theorem c2_resize_does_not_resync_overlay_witness :
    c2WitState.modelsLoaded = true ∧ c2WitState.cameraReady = true ∧
    ((applyEvent .videoPlay c2WitState).canvas =
        some { dims := c2WitState.videoDimensions, content := [] } ∧
      (applyEvent .videoPlay c2WitState).detectionInterval =
        some { dims := c2WitState.videoDimensions,
               modelsLoadedCap := c2WitState.modelsLoaded } ∧
      (applyEvent (.resize 440) c2WitState).canvas = c2WitState.canvas ∧
      (applyEvent (.resize 440) c2WitState).detectionInterval =
        c2WitState.detectionInterval ∧
      (applyEvent (.resize 440) c2WitState).videoDimensions =
        calculateDimensions 440) :=
  ⟨by decide, by decide,
   c2_resize_does_not_resync_overlay c2WitState 440 (by decide) (by decide)⟩

def c5Trace : List Event :=
  [.modelsLoadedOk, .cameraOk 1, .videoPlay, .clickStart true]

/-- Claim C5 is false on the code: cleanup never touches the recorder, so
tearing down mid-recording leaves the recorder running and the recording
flag set. -/
theorem c5_teardown_keeps_recorder_counterexample :
    Reachable (runE c5Trace initState) ∧
    (runE c5Trace initState).currentActive = true ∧
    (applyEvent .unmount (runE c5Trace initState)).currentActive = true ∧
    (applyEvent .unmount (runE c5Trace initState)).recording = true :=
  ⟨reachable_runE c5Trace initState Reachable.init,
   by decide, by decide, by decide⟩

/-- Claim C5 amended: teardown cancels the detection timer, stops every
capture track and revokes the held download handle, but does not stop an
active recording — the recorder and the recording flag are untouched. -/
theorem c5_cleanup_obligations (s : FaceRecorderState) (hre : Reachable s) :
    (applyEvent .unmount s).detectionInterval = none ∧
    (∀ b ∈ (applyEvent .unmount s).streamTracks, b = false) ∧
    (∀ u, s.videoURL = some u → u ∉ (applyEvent .unmount s).liveURLs) ∧
    (applyEvent .unmount s).currentActive = s.currentActive ∧
    (applyEvent .unmount s).recording = s.recording := by
  obtain ⟨_, _, _, _, h5, _⟩ := inv_reachable s hre
  refine ⟨rfl, ?_, ?_, rfl, rfl⟩
  · intro b hb
    simp only [applyEvent, List.mem_map] at hb
    obtain ⟨a, _, hab⟩ := hb
    exact hab.symm
  · intro u hu
    simp only [applyEvent, hu]
    exact h5.not_mem_erase

def c5WitTrace : List Event :=
  [.modelsLoadedOk, .cameraOk 1, .videoPlay, .clickStart true,
   .dataAvailable [9], .clickStop, .recorderStopped]

theorem c5_cleanup_obligations_witness :
    Reachable (runE c5WitTrace initState) ∧
      ((applyEvent .unmount (runE c5WitTrace initState)).detectionInterval =
          none ∧
        (∀ b ∈ (applyEvent .unmount (runE c5WitTrace initState)).streamTracks,
          b = false) ∧
        (∀ u, (runE c5WitTrace initState).videoURL = some u →
          u ∉ (applyEvent .unmount (runE c5WitTrace initState)).liveURLs) ∧
        (applyEvent .unmount (runE c5WitTrace initState)).currentActive =
          (runE c5WitTrace initState).currentActive ∧
        (applyEvent .unmount (runE c5WitTrace initState)).recording =
          (runE c5WitTrace initState).recording) :=
  ⟨reachable_runE c5WitTrace initState Reachable.init,
   c5_cleanup_obligations (runE c5WitTrace initState)
     (reachable_runE c5WitTrace initState Reachable.init)⟩

theorem c10_artifact_is_ordered_concat_witness :
    c10State.canvas =
      some { dims := { width := 640, height := 480 }, content := [] } ∧
    ((applyEvent (.clickStart true) c10State).recordedChunks = [] ∧
     (applyEvent .recorderStopped (applyEvent .clickStop
        (feedChunks (applyEvent (.clickStart true) c10State)
          [[1, 2], [], [3]]))).artifact =
      some (List.flatten
        ([[1, 2], [], [3]].filter (fun d => decide (0 < d.length))))) :=
  ⟨rfl, c10_artifact_is_ordered_concat c10State
    { dims := { width := 640, height := 480 }, content := [] }
    [[1, 2], [], [3]] rfl⟩

end FaceTracker
